import Mathlib

/-!
Verification of the asynchronous resume-generation job orchestration subsystem
of the woragis jobs backend (Go). The definitions below are a shallow embedding
of the Go source:

* the `resumes` domain entity `ResumeGenerationJob`, its constructor
  `NewResumeGenerationJob` and the transition methods `MarkProcessing`,
  `MarkCompleted`, `MarkFailed`, `MarkCancelled`;
* the wire type `ResumeWorkerJob` and its JSON field layout;
* the `RabbitMQPublisher` interface with its real and no-op implementations;
* the `service` methods `GenerateResume`, `GetResumeGenerationJobStatus`,
  `CompleteResumeGeneration`, `FailResumeGeneration`.

Go-specific effects are made explicit: `uuid.New()` and `time.Now()` become
parameters (the fresh id and the clock reading), the repository-backed store is
passed and returned explicitly, published messages and structured log events are
collected in the result records.
-/

/-- A UUID, abstracted to its 128-bit value. `uuid.Nil` is the zero value. -/
structure UUID where
  val : Nat
  deriving DecidableEq, Repr

/-- The Go `uuid.Nil` zero UUID. -/
def UUID.Nil : UUID := { val := 0 }

/-- `uuid.UUID.String()`, abstracted to an injective rendering of the value. -/
def UUID.str (u : UUID) : String := toString u.val

/-- A JSON value, for the open `map[string]interface{}` metadata bag. -/
inductive JSONValue where
  | null
  | bool (b : Bool)
  | num (n : Int)
  | str (s : String)
  | arr (elems : List JSONValue)
  | obj (fields : List (String × JSONValue))

/-- The `JSONMetadata` bag: a JSON object, as a key/value association list. -/
def JSONMetadata := List (String × JSONValue)

/-- `ResumeJobStatus`: status constants of a resume generation job. -/
inductive ResumeJobStatus where
  | pending
  | processing
  | completed
  | failed
  | cancelled
  deriving DecidableEq, Repr

/-- The `ResumeGenerationJob` entity (table `resume_jobs`). Go's absent error
fields are the empty string, as in the source; `ResumeID` is a nullable
pointer, hence an `Option`. Timestamps are abstract clock readings. -/
structure ResumeGenerationJob where
  id : UUID
  userID : UUID
  jobDescription : String
  status : ResumeJobStatus
  metadata : JSONMetadata
  errorMessage : String
  errorCode : String
  resumeID : Option UUID
  createdAt : Nat
  updatedAt : Nat

/-- `NewResumeGenerationJob(userID, jobDescription, metadata)`. The fresh id
produced by `uuid.New()` and the `time.Now()` reading are parameters. The Go
code copies the metadata map entry by entry, which preserves its contents. -/
def NewResumeGenerationJob (id : UUID) (userID : UUID) (jobDescription : String)
    (metadata : JSONMetadata) (now : Nat) : ResumeGenerationJob :=
  { id := id
    userID := userID
    jobDescription := jobDescription
    status := ResumeJobStatus.pending
    metadata := metadata
    errorMessage := ""
    errorCode := ""
    resumeID := none
    createdAt := now
    updatedAt := now }

/-- `(*ResumeGenerationJob).MarkProcessing()`. -/
def ResumeGenerationJob.MarkProcessing (j : ResumeGenerationJob) (now : Nat) :
    ResumeGenerationJob :=
  { j with status := ResumeJobStatus.processing, updatedAt := now }

/-- `(*ResumeGenerationJob).MarkCompleted(resumeID)`. -/
def ResumeGenerationJob.MarkCompleted (j : ResumeGenerationJob) (resumeID : UUID)
    (now : Nat) : ResumeGenerationJob :=
  { j with status := ResumeJobStatus.completed
           resumeID := some resumeID
           errorMessage := ""
           errorCode := ""
           updatedAt := now }

/-- `(*ResumeGenerationJob).MarkFailed(errorMessage, errorCode)`. -/
def ResumeGenerationJob.MarkFailed (j : ResumeGenerationJob)
    (errorMessage : String) (errorCode : String) (now : Nat) : ResumeGenerationJob :=
  { j with status := ResumeJobStatus.failed
           errorMessage := errorMessage
           errorCode := errorCode
           updatedAt := now }

/-- `(*ResumeGenerationJob).MarkCancelled()`. -/
def ResumeGenerationJob.MarkCancelled (j : ResumeGenerationJob) (now : Nat) :
    ResumeGenerationJob :=
  { j with status := ResumeJobStatus.cancelled, updatedAt := now }

/-- The `resume_jobs` table contents: the rows, keyed by their primary key
`id` column. -/
def Store := List ResumeGenerationJob

/-- Primary-key lookup in the `resume_jobs` table. -/
def Store.find : Store → UUID → Option ResumeGenerationJob
  | [], _ => none
  | j :: rest, id => if j.id = id then some j else Store.find rest id

/-- Full-record replace of the row whose primary key matches. -/
def Store.replace (s : Store) (j : ResumeGenerationJob) : Store :=
  s.map fun x => if x.id = j.id then j else x

/-- Repository errors, from the spec's error taxonomy (section 7). -/
inductive RepoErr where
  | persistence
  | duplicateID
  | notFound
  deriving DecidableEq, Repr

/-- Modelled from the spec: the GORM repository implementation behind the
`Repository` interface is not part of the visible source. Per the spec's
JobStore contract, `Create(job)` persists a new row and fails with
`DuplicateID` if the id already exists; per the spec's error taxonomy, a
`PersistenceError` (store unreachable) means the job is not created. The
`avail` flag injects that environmental condition. -/
def Repository.CreateResumeGenerationJob (avail : Bool) (s : Store)
    (j : ResumeGenerationJob) : Except RepoErr Store :=
  if avail = false then Except.error RepoErr.persistence
  else if (s.find j.id).isSome then Except.error RepoErr.duplicateID
  else Except.ok (j :: s)

/-- Modelled from the spec: the GORM repository implementation is not part of
the visible source. The interface and every call site in the source take only
the job id (`GetResumeGenerationJob(ctx, jobID)`), so the lookup is by primary
key alone; per the spec's JobStore contract it fails with `NotFound` when the
id is absent. The spec's `ownerId` scoping argument does not exist in the
code's signature. -/
def Repository.GetResumeGenerationJob (s : Store) (id : UUID) :
    Except RepoErr ResumeGenerationJob :=
  match s.find id with
  | some j => Except.ok j
  | none => Except.error RepoErr.notFound

/-- Modelled from the spec: the GORM repository implementation is not part of
the visible source. Per the spec's JobStore contract, `Update(job)` is a
full-record replace that fails with `NotFound` if the id is unknown. -/
def Repository.UpdateResumeGenerationJob (s : Store) (j : ResumeGenerationJob) :
    Except RepoErr Store :=
  if (s.find j.id).isSome then Except.ok (s.replace j)
  else Except.error RepoErr.notFound

/-- `ResumeWorkerJob`: the message published to RabbitMQ for the worker. -/
structure ResumeWorkerJob where
  jobID : String
  userID : String
  jobDescription : String
  metadata : JSONMetadata

/-- `json.Marshal` of a `ResumeWorkerJob`: a JSON object whose fields are the
struct's fields in declaration order, under their json tags
(`jobId`, `userId`, `jobDescription`, `metadata`). -/
def ResumeWorkerJob.marshal (j : ResumeWorkerJob) : List (String × JSONValue) :=
  [("jobId", JSONValue.str j.jobID),
   ("userId", JSONValue.str j.userID),
   ("jobDescription", JSONValue.str j.jobDescription),
   ("metadata", JSONValue.obj j.metadata)]

/-- The `ResumeWorkerJob` built by `service.GenerateResume` from the persisted
job: `{JobID: job.ID.String(), UserID: job.UserID.String(),
JobDescription: job.JobDescription, Metadata: job.Metadata}`. -/
def workerJobOf (j : ResumeGenerationJob) : ResumeWorkerJob :=
  { jobID := j.id.str
    userID := j.userID.str
    jobDescription := j.jobDescription
    metadata := j.metadata }

/-- `slog` levels used by the subsystem. -/
inductive LogLevel where
  | info
  | warn
  | error
  deriving DecidableEq, Repr

/-- A structured log event: level and message text. -/
structure LogEvent where
  level : LogLevel
  msg : String
  deriving DecidableEq, Repr

/-- Publish errors of the real publisher. -/
inductive PubErr where
  | noChannel
  | brokerDown
  deriving DecidableEq, Repr

/-- Result of one `PublishResumeGenerationJob` call: the returned error if
any, the messages actually delivered to the broker, and the log output. -/
structure PublishOutcome where
  err : Option PubErr
  delivered : List ResumeWorkerJob
  logs : List LogEvent

/-- The `RabbitMQPublisher` interface, as a record of its publish method. -/
structure RabbitMQPublisherI where
  PublishResumeGenerationJob : ResumeWorkerJob → PublishOutcome

/-- `(*rabbitMQPublisher).PublishResumeGenerationJob`: errors out if the
channel is nil; otherwise marshals the job and publishes it, logging an error
and returning one when the broker publish fails, and logging an info event on
success. `channelOk` and `brokerOk` inject the environmental conditions. -/
def rabbitMQPublisher (channelOk : Bool) (brokerOk : Bool) : RabbitMQPublisherI :=
  { PublishResumeGenerationJob := fun job =>
      if channelOk = false then
        { err := some PubErr.noChannel, delivered := [], logs := [] }
      else if brokerOk = false then
        { err := some PubErr.brokerDown
          delivered := []
          logs := [{ level := LogLevel.error, msg := "failed to publish job" }] }
      else
        { err := none
          delivered := [job]
          logs := [{ level := LogLevel.info, msg := "resume generation job published" }] } }

/-- `(*noOpPublisher).PublishResumeGenerationJob`: always succeeds, delivers
nothing, and logs the warning that the job will not be queued. -/
def noOpPublisher : RabbitMQPublisherI :=
  { PublishResumeGenerationJob := fun _ =>
      { err := none
        delivered := []
        logs := [{ level := LogLevel.warn
                   msg := "RabbitMQ publisher is not available, job will not be queued" }] } }

/-- Service-level errors: propagated repository errors and publish errors. -/
inductive SvcErr where
  | store (e : RepoErr)
  | publish (e : PubErr)
  deriving DecidableEq, Repr

/-- Result of `service.GenerateResume`: the returned `(uuid.UUID, error)` pair
plus the explicit effects — the store after the call, the messages handed to
the publisher, the messages delivered to the broker, and the log output. -/
structure SubmitResult where
  jobID : UUID
  err : Option SvcErr
  store : Store
  handed : List ResumeWorkerJob
  delivered : List ResumeWorkerJob
  logs : List LogEvent

/-- `service.GenerateResume(ctx, userID, jobDescription, metadata)`:
creates a new pending job, persists it (returning `uuid.Nil` and the error on
failure), builds the `ResumeWorkerJob` and publishes it; on publish failure
marks the job failed with code `QUEUE_ERROR`, best-effort updates the store
(the update's error is discarded with `_ =` in the source), and returns
`uuid.Nil` with the publish error; on success returns the job id. -/
def service.GenerateResume (pub : RabbitMQPublisherI) (createAvail : Bool)
    (s : Store) (freshID : UUID) (userID : UUID) (jobDescription : String)
    (metadata : JSONMetadata) (now : Nat) : SubmitResult :=
  let job := NewResumeGenerationJob freshID userID jobDescription metadata now
  match Repository.CreateResumeGenerationJob createAvail s job with
  | Except.error e =>
      { jobID := UUID.Nil
        err := some (SvcErr.store e)
        store := s
        handed := []
        delivered := []
        logs := [{ level := LogLevel.error, msg := "failed to create resume generation job" }] }
  | Except.ok s1 =>
      let workerJob := workerJobOf job
      let out := pub.PublishResumeGenerationJob workerJob
      match out.err with
      | some pe =>
          let job2 := job.MarkFailed "Failed to queue job for processing" "QUEUE_ERROR" now
          let s2 := match Repository.UpdateResumeGenerationJob s1 job2 with
                    | Except.ok s2 => s2
                    | Except.error _ => s1
          { jobID := UUID.Nil
            err := some (SvcErr.publish pe)
            store := s2
            handed := [workerJob]
            delivered := out.delivered
            logs := out.logs ++
              [{ level := LogLevel.error, msg := "failed to publish resume generation job" }] }
      | none =>
          { jobID := job.id
            err := none
            store := s1
            handed := [workerJob]
            delivered := out.delivered
            logs := out.logs ++
              [{ level := LogLevel.info, msg := "resume generation job created and queued" }] }

/-- `service.GetResumeGenerationJobStatus(ctx, jobID)`: read-only fetch of the
job by id. The method takes no requester identity. -/
def service.GetResumeGenerationJobStatus (s : Store) (jobID : UUID) :
    Except SvcErr ResumeGenerationJob :=
  match Repository.GetResumeGenerationJob s jobID with
  | Except.ok job => Except.ok job
  | Except.error e => Except.error (SvcErr.store e)

/-- Result of a worker callback (`Complete`/`Fail`): the returned error and
the store after the call. -/
structure CallbackResult where
  err : Option SvcErr
  store : Store

/-- `service.CompleteResumeGeneration(ctx, jobID, resumeID)`: fetches the job,
marks it completed with the generated resume id, and updates the store. -/
def service.CompleteResumeGeneration (s : Store) (jobID : UUID)
    (resumeID : UUID) (now : Nat) : CallbackResult :=
  match Repository.GetResumeGenerationJob s jobID with
  | Except.error e => { err := some (SvcErr.store e), store := s }
  | Except.ok job =>
      let job2 := job.MarkCompleted resumeID now
      match Repository.UpdateResumeGenerationJob s job2 with
      | Except.error e => { err := some (SvcErr.store e), store := s }
      | Except.ok s2 => { err := none, store := s2 }

/-- `service.FailResumeGeneration(ctx, jobID, errorMessage)`: fetches the job,
marks it failed with the message and the generic code `GENERATION_ERROR`
(the source comment: a generic error code is used since none is provided),
and updates the store. -/
def service.FailResumeGeneration (s : Store) (jobID : UUID)
    (errorMessage : String) (now : Nat) : CallbackResult :=
  match Repository.GetResumeGenerationJob s jobID with
  | Except.error e => { err := some (SvcErr.store e), store := s }
  | Except.ok job =>
      let job2 := job.MarkFailed errorMessage "GENERATION_ERROR" now
      match Repository.UpdateResumeGenerationJob s job2 with
      | Except.error e => { err := some (SvcErr.store e), store := s }
      | Except.ok s2 => { err := none, store := s2 }

/-- A job status is terminal when it is completed, failed or cancelled. -/
def ResumeJobStatus.terminal : ResumeJobStatus → Bool
  | ResumeJobStatus.completed => true
  | ResumeJobStatus.failed => true
  | ResumeJobStatus.cancelled => true
  | _ => false

/-- One application of a core transition operation to a job record, exactly as
the core's call sites invoke them: the worker-path `MarkProcessing` and
`MarkCancelled`, `Complete`'s `MarkCompleted(resumeID)`, `Fail`'s
`MarkFailed(msg, "GENERATION_ERROR")`, and `Submit`'s publish-failure
`MarkFailed("Failed to queue job for processing", "QUEUE_ERROR")`.
No operation inspects the current status. -/
inductive CoreStep : ResumeGenerationJob → ResumeGenerationJob → Prop where
  | processing (j : ResumeGenerationJob) (now : Nat) :
      CoreStep j (j.MarkProcessing now)
  | complete (j : ResumeGenerationJob) (rid : UUID) (now : Nat) :
      CoreStep j (j.MarkCompleted rid now)
  | failWorker (j : ResumeGenerationJob) (msg : String) (now : Nat) :
      CoreStep j (j.MarkFailed msg "GENERATION_ERROR" now)
  | failQueue (j : ResumeGenerationJob) (now : Nat) :
      CoreStep j (j.MarkFailed "Failed to queue job for processing" "QUEUE_ERROR" now)
  | cancel (j : ResumeGenerationJob) (now : Nat) :
      CoreStep j (j.MarkCancelled now)

/-- Job records reachable by any sequence of core operations from a fresh
submission. -/
inductive CoreReachable : ResumeGenerationJob → Prop where
  | submit (id uid : UUID) (desc : String) (md : JSONMetadata) (now : Nat) :
      CoreReachable (NewResumeGenerationJob id uid desc md now)
  | step (j j2 : ResumeGenerationJob) :
      CoreReachable j → CoreStep j j2 → CoreReachable j2

/-- A core transition guarded by the spec's forward transition graph:
`MarkProcessing` only from `Pending`, the callbacks and cancellation only from
the non-terminal states `Pending`/`Processing`, the publish-failure path only
from the freshly created `Pending` job. -/
inductive GuardedStep : ResumeGenerationJob → ResumeGenerationJob → Prop where
  | processing (j : ResumeGenerationJob) (now : Nat) :
      j.status = ResumeJobStatus.pending → GuardedStep j (j.MarkProcessing now)
  | complete (j : ResumeGenerationJob) (rid : UUID) (now : Nat) :
      j.status = ResumeJobStatus.pending ∨ j.status = ResumeJobStatus.processing →
      GuardedStep j (j.MarkCompleted rid now)
  | failWorker (j : ResumeGenerationJob) (msg : String) (now : Nat) :
      j.status = ResumeJobStatus.pending ∨ j.status = ResumeJobStatus.processing →
      GuardedStep j (j.MarkFailed msg "GENERATION_ERROR" now)
  | failQueue (j : ResumeGenerationJob) (now : Nat) :
      j.status = ResumeJobStatus.pending →
      GuardedStep j (j.MarkFailed "Failed to queue job for processing" "QUEUE_ERROR" now)
  | cancel (j : ResumeGenerationJob) (now : Nat) :
      j.status = ResumeJobStatus.pending ∨ j.status = ResumeJobStatus.processing →
      GuardedStep j (j.MarkCancelled now)

/-- Job records reachable from a fresh submission along the spec's forward
transition graph. -/
inductive GuardedReachable : ResumeGenerationJob → Prop where
  | submit (id uid : UUID) (desc : String) (md : JSONMetadata) (now : Nat) :
      GuardedReachable (NewResumeGenerationJob id uid desc md now)
  | step (j j2 : ResumeGenerationJob) :
      GuardedReachable j → GuardedStep j j2 → GuardedReachable j2

/-- Primary-key lookup returns a row with the looked-up key. -/
theorem Store.find_id {s : Store} {id : UUID} {j : ResumeGenerationJob}
    (h : s.find id = some j) : j.id = id := by
  induction s with
  | nil => simp [Store.find] at h
  | cons x rest ih =>
      by_cases hx : x.id = id
      · simp [Store.find, hx] at h
        subst h
        exact hx
      · simp [Store.find, hx] at h
        exact ih h

/-- Replacing a present row makes the lookup of its key return it. -/
theorem Store.find_replace {s : Store} {id : UUID} {x j2 : ResumeGenerationJob}
    (h : s.find id = some x) (hid : j2.id = id) :
    (s.replace j2).find id = some j2 := by
  induction s with
  | nil => simp [Store.find] at h
  | cons y rest ih =>
      by_cases hy : y.id = id
      · have hyj : y.id = j2.id := hy.trans hid.symm
        simp [Store.replace, Store.find, hyj, hid]
      · simp [Store.find, hy] at h
        have hne : ¬ y.id = j2.id := fun hc => hy (hc.trans hid)
        simpa [Store.replace, Store.find, hne, hy] using ih h

/-- Characterization of `CompleteResumeGeneration` when the job is present:
the stored row is replaced by its `MarkCompleted` image and no error is
returned. -/
theorem CompleteResumeGeneration_run (s : Store) (jobID resumeID : UUID)
    (now : Nat) (j : ResumeGenerationJob) (hget : s.find jobID = some j) :
    service.CompleteResumeGeneration s jobID resumeID now =
      { err := none, store := s.replace (j.MarkCompleted resumeID now) } := by
  have hjid : j.id = jobID := Store.find_id hget
  have hfind : s.find (j.MarkCompleted resumeID now).id = some j := by
    simpa [ResumeGenerationJob.MarkCompleted, hjid] using hget
  simp [service.CompleteResumeGeneration, Repository.GetResumeGenerationJob,
        Repository.UpdateResumeGenerationJob, hget, hfind]

/-- Characterization of `FailResumeGeneration` when the job is present:
the stored row is replaced by its `MarkFailed msg "GENERATION_ERROR"` image
and no error is returned. -/
theorem FailResumeGeneration_run (s : Store) (jobID : UUID) (msg : String)
    (now : Nat) (j : ResumeGenerationJob) (hget : s.find jobID = some j) :
    service.FailResumeGeneration s jobID msg now =
      { err := none, store := s.replace (j.MarkFailed msg "GENERATION_ERROR" now) } := by
  have hjid : j.id = jobID := Store.find_id hget
  have hfind : s.find (j.MarkFailed msg "GENERATION_ERROR" now).id = some j := by
    simpa [ResumeGenerationJob.MarkFailed, hjid] using hget
  simp [service.FailResumeGeneration, Repository.GetResumeGenerationJob,
        Repository.UpdateResumeGenerationJob, hget, hfind]

/-- Claim C2 counterexample: a job in the terminal state `Completed` does not
stay there — invoking `FailResumeGeneration` on it succeeds and moves its
stored status to `Failed`, so a transition out of a terminal state is
performed by the core. -/
theorem C2_counterexample :
    ((NewResumeGenerationJob { val := 10 } { val := 11 } "d" [] 0).MarkCompleted
        { val := 12 } 1).status.terminal = true ∧
    (service.FailResumeGeneration
        [(NewResumeGenerationJob { val := 10 } { val := 11 } "d" [] 0).MarkCompleted
          { val := 12 } 1] { val := 10 } "boom" 2).err = none ∧
    (service.FailResumeGeneration
        [(NewResumeGenerationJob { val := 10 } { val := 11 } "d" [] 0).MarkCompleted
          { val := 12 } 1] { val := 10 } "boom" 2).store.find { val := 10 } =
      some (((NewResumeGenerationJob { val := 10 } { val := 11 } "d" [] 0).MarkCompleted
          { val := 12 } 1).MarkFailed "boom" "GENERATION_ERROR" 2) ∧
    (((NewResumeGenerationJob { val := 10 } { val := 11 } "d" [] 0).MarkCompleted
        { val := 12 } 1).MarkFailed "boom" "GENERATION_ERROR" 2).status =
      ResumeJobStatus.failed :=
  ⟨rfl, rfl, rfl, rfl⟩

/-- Claim C2 (amended): the core's transition operations set the status
unconditionally, without inspecting the current state: on any stored job —
terminal or not — `Complete` yields `Completed`, `Fail` yields `Failed`,
`MarkProcessing` yields `Processing` and `MarkCancelled` yields `Cancelled`.
The forward-only transition graph is expected of callers, not enforced by the
core, so terminal states are not protected. -/
theorem C2_amended_transitions_unguarded (s : Store) (jobID rid : UUID)
    (j : ResumeGenerationJob) (msg : String) (now : Nat)
    (hget : s.find jobID = some j) :
    ((service.CompleteResumeGeneration s jobID rid now).store.find jobID =
        some (j.MarkCompleted rid now) ∧
      (j.MarkCompleted rid now).status = ResumeJobStatus.completed) ∧
    ((service.FailResumeGeneration s jobID msg now).store.find jobID =
        some (j.MarkFailed msg "GENERATION_ERROR" now) ∧
      (j.MarkFailed msg "GENERATION_ERROR" now).status = ResumeJobStatus.failed) ∧
    (j.MarkProcessing now).status = ResumeJobStatus.processing ∧
    (j.MarkCancelled now).status = ResumeJobStatus.cancelled := by
  have hjid : j.id = jobID := Store.find_id hget
  refine ⟨⟨?_, rfl⟩, ⟨?_, rfl⟩, rfl, rfl⟩
  · rw [CompleteResumeGeneration_run s jobID rid now j hget]
    exact Store.find_replace hget hjid
  · rw [FailResumeGeneration_run s jobID msg now j hget]
    exact Store.find_replace hget hjid

/-- Witness for the amended C2 theorem at a concrete completed job. -/
theorem C2_amended_transitions_unguarded_witness :
    Store.find [(NewResumeGenerationJob { val := 10 } { val := 11 } "d" [] 0).MarkCompleted
        { val := 12 } 1] { val := 10 } =
      some ((NewResumeGenerationJob { val := 10 } { val := 11 } "d" [] 0).MarkCompleted
        { val := 12 } 1) ∧
    ((service.FailResumeGeneration
        [(NewResumeGenerationJob { val := 10 } { val := 11 } "d" [] 0).MarkCompleted
          { val := 12 } 1] { val := 10 } "x" 2).store.find { val := 10 } =
      some (((NewResumeGenerationJob { val := 10 } { val := 11 } "d" [] 0).MarkCompleted
        { val := 12 } 1).MarkFailed "x" "GENERATION_ERROR" 2)) :=
  ⟨rfl,
   ((C2_amended_transitions_unguarded
      [(NewResumeGenerationJob { val := 10 } { val := 11 } "d" [] 0).MarkCompleted
        { val := 12 } 1] { val := 10 } { val := 13 }
      ((NewResumeGenerationJob { val := 10 } { val := 11 } "d" [] 0).MarkCompleted
        { val := 12 } 1) "x" 2 rfl).2.1).1⟩

/-- Claim C4: when the job is in the store and the store operations succeed,
`CompleteResumeGeneration(jobID, ref)` on a previously non-terminal job leaves
the stored job with `status=Completed`, `resumeID=ref`, and both error fields
cleared, and returns no error. -/
theorem C4_complete_sets_result (s : Store) (jobID rid : UUID) (now : Nat)
    (j : ResumeGenerationJob) (hget : s.find jobID = some j)
    (_hnt : j.status.terminal = false) :
    (service.CompleteResumeGeneration s jobID rid now).err = none ∧
    ∃ j2, (service.CompleteResumeGeneration s jobID rid now).store.find jobID = some j2 ∧
      j2.status = ResumeJobStatus.completed ∧ j2.resumeID = some rid ∧
      j2.errorMessage = "" ∧ j2.errorCode = "" := by
  have hjid : j.id = jobID := Store.find_id hget
  rw [CompleteResumeGeneration_run s jobID rid now j hget]
  exact ⟨rfl, j.MarkCompleted rid now, Store.find_replace hget hjid, rfl, rfl, rfl, rfl⟩

/-- Witness for C4 at a concrete pending job. -/
theorem C4_complete_sets_result_witness :
    Store.find [NewResumeGenerationJob { val := 20 } { val := 21 } "d" [] 0]
        { val := 20 } = some (NewResumeGenerationJob { val := 20 } { val := 21 } "d" [] 0) ∧
    (NewResumeGenerationJob { val := 20 } { val := 21 } "d" [] 0).status.terminal = false ∧
    ((service.CompleteResumeGeneration
        [NewResumeGenerationJob { val := 20 } { val := 21 } "d" [] 0]
        { val := 20 } { val := 22 } 1).err = none ∧
      ∃ j2, (service.CompleteResumeGeneration
          [NewResumeGenerationJob { val := 20 } { val := 21 } "d" [] 0]
          { val := 20 } { val := 22 } 1).store.find { val := 20 } = some j2 ∧
        j2.status = ResumeJobStatus.completed ∧ j2.resumeID = some { val := 22 } ∧
        j2.errorMessage = "" ∧ j2.errorCode = "") :=
  ⟨rfl, rfl,
   C4_complete_sets_result
     [NewResumeGenerationJob { val := 20 } { val := 21 } "d" [] 0]
     { val := 20 } { val := 22 } 1
     (NewResumeGenerationJob { val := 20 } { val := 21 } "d" [] 0) rfl rfl⟩

/-- Claim C5: when the job is in the store and the store operations succeed,
`FailResumeGeneration(jobID, msg)` on a previously non-terminal job leaves the
stored job with `status=Failed`, `errorMessage=msg` and the generic fallback
code `GENERATION_ERROR` as `errorCode`, and returns no error. -/
theorem C5_fail_records_message (s : Store) (jobID : UUID) (msg : String)
    (now : Nat) (j : ResumeGenerationJob) (hget : s.find jobID = some j)
    (_hnt : j.status.terminal = false) :
    (service.FailResumeGeneration s jobID msg now).err = none ∧
    ∃ j2, (service.FailResumeGeneration s jobID msg now).store.find jobID = some j2 ∧
      j2.status = ResumeJobStatus.failed ∧ j2.errorMessage = msg ∧
      j2.errorCode = "GENERATION_ERROR" := by
  have hjid : j.id = jobID := Store.find_id hget
  rw [FailResumeGeneration_run s jobID msg now j hget]
  exact ⟨rfl, j.MarkFailed msg "GENERATION_ERROR" now, Store.find_replace hget hjid, rfl, rfl, rfl⟩

/-- Witness for C5 at a concrete processing job. -/
theorem C5_fail_records_message_witness :
    Store.find [(NewResumeGenerationJob { val := 25 } { val := 26 } "d" [] 0).MarkProcessing 1]
        { val := 25 } =
      some ((NewResumeGenerationJob { val := 25 } { val := 26 } "d" [] 0).MarkProcessing 1) ∧
    ((NewResumeGenerationJob { val := 25 } { val := 26 } "d" [] 0).MarkProcessing 1).status.terminal
        = false ∧
    ((service.FailResumeGeneration
        [(NewResumeGenerationJob { val := 25 } { val := 26 } "d" [] 0).MarkProcessing 1]
        { val := 25 } "template render error" 2).err = none ∧
      ∃ j2, (service.FailResumeGeneration
          [(NewResumeGenerationJob { val := 25 } { val := 26 } "d" [] 0).MarkProcessing 1]
          { val := 25 } "template render error" 2).store.find { val := 25 } = some j2 ∧
        j2.status = ResumeJobStatus.failed ∧
        j2.errorMessage = "template render error" ∧
        j2.errorCode = "GENERATION_ERROR") :=
  ⟨rfl, rfl,
   C5_fail_records_message
     [(NewResumeGenerationJob { val := 25 } { val := 26 } "d" [] 0).MarkProcessing 1]
     { val := 25 } "template render error" 2
     ((NewResumeGenerationJob { val := 25 } { val := 26 } "d" [] 0).MarkProcessing 1) rfl rfl⟩

/-- Replacing a row whose key is absent leaves the table unchanged. -/
theorem Store.replace_not_found {s : Store} {j2 : ResumeGenerationJob}
    (h : s.find j2.id = none) : s.replace j2 = s := by
  induction s with
  | nil => rfl
  | cons y rest ih =>
      by_cases hy : y.id = j2.id
      · simp [Store.find, hy] at h
      · simp [Store.find, hy] at h
        show (if y.id = j2.id then j2 else y) :: Store.replace rest j2 = y :: rest
        rw [if_neg hy, ih h]

/-- Unfolding equation for `Store.replace` on a nonempty table. -/
theorem Store.replace_cons (y : ResumeGenerationJob) (s : Store)
    (j2 : ResumeGenerationJob) :
    Store.replace (y :: s) j2 = (if y.id = j2.id then j2 else y) :: Store.replace s j2 :=
  rfl

/-- Run of `GenerateResume` when the store is unavailable at create time: the
job is not created and `(uuid.Nil, err)` is returned. -/
theorem GenerateResume_run_create_unavailable (pub : RabbitMQPublisherI)
    (s : Store) (freshID userID : UUID) (desc : String) (md : JSONMetadata)
    (now : Nat) :
    service.GenerateResume pub false s freshID userID desc md now =
      { jobID := UUID.Nil
        err := some (SvcErr.store RepoErr.persistence)
        store := s
        handed := []
        delivered := []
        logs := [{ level := LogLevel.error, msg := "failed to create resume generation job" }] } :=
  rfl

/-- Run of `GenerateResume` when the fresh id collides with an existing row:
create fails with `DuplicateID` and `(uuid.Nil, err)` is returned. -/
theorem GenerateResume_run_duplicate (pub : RabbitMQPublisherI) (s : Store)
    (freshID userID : UUID) (desc : String) (md : JSONMetadata) (now : Nat)
    (x : ResumeGenerationJob) (hdup : s.find freshID = some x) :
    service.GenerateResume pub true s freshID userID desc md now =
      { jobID := UUID.Nil
        err := some (SvcErr.store RepoErr.duplicateID)
        store := s
        handed := []
        delivered := []
        logs := [{ level := LogLevel.error, msg := "failed to create resume generation job" }] } := by
  have hid : (NewResumeGenerationJob freshID userID desc md now).id = freshID := rfl
  simp [service.GenerateResume, Repository.CreateResumeGenerationJob, hid, hdup]

/-- Run of `GenerateResume` when create succeeds and the publish succeeds:
the pending job is stored, the worker message is handed over and delivered,
and the job id is returned with no error. -/
theorem GenerateResume_run_pub_ok (pub : RabbitMQPublisherI) (s : Store)
    (freshID userID : UUID) (desc : String) (md : JSONMetadata) (now : Nat)
    (hfresh : s.find freshID = none)
    (hpub : (pub.PublishResumeGenerationJob
        (workerJobOf (NewResumeGenerationJob freshID userID desc md now))).err = none) :
    service.GenerateResume pub true s freshID userID desc md now =
      { jobID := freshID
        err := none
        store := NewResumeGenerationJob freshID userID desc md now :: s
        handed := [workerJobOf (NewResumeGenerationJob freshID userID desc md now)]
        delivered := (pub.PublishResumeGenerationJob
          (workerJobOf (NewResumeGenerationJob freshID userID desc md now))).delivered
        logs := (pub.PublishResumeGenerationJob
            (workerJobOf (NewResumeGenerationJob freshID userID desc md now))).logs ++
          [{ level := LogLevel.info, msg := "resume generation job created and queued" }] } := by
  have hid : (NewResumeGenerationJob freshID userID desc md now).id = freshID := rfl
  simp [service.GenerateResume, Repository.CreateResumeGenerationJob, hid, hfresh, hpub]

/-- Run of `GenerateResume` when create succeeds and the publish fails: the
job is marked failed with code `QUEUE_ERROR`, the compensating update rewrites
the stored row, nothing is delivered, and `(uuid.Nil, err)` is returned. -/
theorem GenerateResume_run_pub_err (pub : RabbitMQPublisherI) (s : Store)
    (freshID userID : UUID) (desc : String) (md : JSONMetadata) (now : Nat)
    (pe : PubErr) (hfresh : s.find freshID = none)
    (hpub : (pub.PublishResumeGenerationJob
        (workerJobOf (NewResumeGenerationJob freshID userID desc md now))).err = some pe) :
    service.GenerateResume pub true s freshID userID desc md now =
      { jobID := UUID.Nil
        err := some (SvcErr.publish pe)
        store := (NewResumeGenerationJob freshID userID desc md now).MarkFailed
            "Failed to queue job for processing" "QUEUE_ERROR" now :: s
        handed := [workerJobOf (NewResumeGenerationJob freshID userID desc md now)]
        delivered := (pub.PublishResumeGenerationJob
          (workerJobOf (NewResumeGenerationJob freshID userID desc md now))).delivered
        logs := (pub.PublishResumeGenerationJob
            (workerJobOf (NewResumeGenerationJob freshID userID desc md now))).logs ++
          [{ level := LogLevel.error, msg := "failed to publish resume generation job" }] } := by
  have hid : (NewResumeGenerationJob freshID userID desc md now).id = freshID := rfl
  have hid2 : ((NewResumeGenerationJob freshID userID desc md now).MarkFailed
      "Failed to queue job for processing" "QUEUE_ERROR" now).id = freshID := rfl
  have hrep : s.replace ((NewResumeGenerationJob freshID userID desc md now).MarkFailed
      "Failed to queue job for processing" "QUEUE_ERROR" now) = s :=
    Store.replace_not_found (hid2.symm ▸ hfresh)
  simp [service.GenerateResume, Repository.CreateResumeGenerationJob,
        Repository.UpdateResumeGenerationJob, Store.find, Store.replace_cons,
        hid, hid2, hfresh, hpub, hrep]

/-- Claim C1: when the store create succeeds but the publish fails,
`GenerateResume` transitions the stored job to `status=Failed` with
`errorCode=QUEUE_ERROR` (and the fixed failure message) and returns an error;
the job is not left in `status=Pending`. -/
theorem C1_publish_failure_contained (pub : RabbitMQPublisherI) (s : Store)
    (freshID userID : UUID) (desc : String) (md : JSONMetadata) (now : Nat)
    (pe : PubErr) (hfresh : s.find freshID = none)
    (hpub : (pub.PublishResumeGenerationJob
        (workerJobOf (NewResumeGenerationJob freshID userID desc md now))).err = some pe) :
    (service.GenerateResume pub true s freshID userID desc md now).err.isSome = true ∧
    ∃ j, (service.GenerateResume pub true s freshID userID desc md now).store.find freshID
        = some j ∧
      j.status = ResumeJobStatus.failed ∧
      j.errorCode = "QUEUE_ERROR" ∧
      j.errorMessage = "Failed to queue job for processing" ∧
      j.status ≠ ResumeJobStatus.pending := by
  rw [GenerateResume_run_pub_err pub s freshID userID desc md now pe hfresh hpub]
  refine ⟨rfl, (NewResumeGenerationJob freshID userID desc md now).MarkFailed
    "Failed to queue job for processing" "QUEUE_ERROR" now, ?_, rfl, rfl, rfl, ?_⟩
  · have hid2 : ((NewResumeGenerationJob freshID userID desc md now).MarkFailed
        "Failed to queue job for processing" "QUEUE_ERROR" now).id = freshID := rfl
    simp [Store.find, hid2]
  · intro h
    exact ResumeJobStatus.noConfusion h

/-- Witness for C1 with the real publisher against a failing broker. -/
theorem C1_publish_failure_contained_witness :
    Store.find [] { val := 61 } = none ∧
    ((rabbitMQPublisher true false).PublishResumeGenerationJob
        (workerJobOf (NewResumeGenerationJob { val := 61 } { val := 62 } "d" [] 0))).err =
      some PubErr.brokerDown ∧
    ((service.GenerateResume (rabbitMQPublisher true false) true []
        { val := 61 } { val := 62 } "d" [] 0).err.isSome = true ∧
      ∃ j, (service.GenerateResume (rabbitMQPublisher true false) true []
          { val := 61 } { val := 62 } "d" [] 0).store.find { val := 61 } = some j ∧
        j.status = ResumeJobStatus.failed ∧
        j.errorCode = "QUEUE_ERROR" ∧
        j.errorMessage = "Failed to queue job for processing" ∧
        j.status ≠ ResumeJobStatus.pending) :=
  ⟨rfl, rfl,
   C1_publish_failure_contained (rabbitMQPublisher true false) []
     { val := 61 } { val := 62 } "d" [] 0 PubErr.brokerDown rfl rfl⟩

/-- Claim C3: a submission through a succeeding publisher returns the new job
id with no error, and the stored job immediately has `status=Pending`, the
submitted owner id, description and metadata bag intact, no result reference
and no error fields. -/
theorem C3_submit_stores_pending (pub : RabbitMQPublisherI) (s : Store)
    (freshID userID : UUID) (desc : String) (md : JSONMetadata) (now : Nat)
    (hfresh : s.find freshID = none)
    (hpub : (pub.PublishResumeGenerationJob
        (workerJobOf (NewResumeGenerationJob freshID userID desc md now))).err = none) :
    (service.GenerateResume pub true s freshID userID desc md now).err = none ∧
    (service.GenerateResume pub true s freshID userID desc md now).jobID = freshID ∧
    ∃ j, (service.GenerateResume pub true s freshID userID desc md now).store.find freshID
        = some j ∧
      j.status = ResumeJobStatus.pending ∧ j.userID = userID ∧
      j.jobDescription = desc ∧ j.metadata = md ∧ j.resumeID = none ∧
      j.errorMessage = "" ∧ j.errorCode = "" := by
  rw [GenerateResume_run_pub_ok pub s freshID userID desc md now hfresh hpub]
  refine ⟨rfl, rfl, NewResumeGenerationJob freshID userID desc md now, ?_,
    rfl, rfl, rfl, rfl, rfl, rfl, rfl⟩
  have hid : (NewResumeGenerationJob freshID userID desc md now).id = freshID := rfl
  simp [Store.find, hid]

/-- Witness for C3 with the real publisher against a healthy broker. -/
theorem C3_submit_stores_pending_witness :
    Store.find [] { val := 71 } = none ∧
    ((rabbitMQPublisher true true).PublishResumeGenerationJob
        (workerJobOf (NewResumeGenerationJob { val := 71 } { val := 72 }
          "Senior Go Engineer" [("lang", JSONValue.str "en")] 0))).err = none ∧
    ((service.GenerateResume (rabbitMQPublisher true true) true []
        { val := 71 } { val := 72 } "Senior Go Engineer"
        [("lang", JSONValue.str "en")] 0).err = none ∧
      (service.GenerateResume (rabbitMQPublisher true true) true []
        { val := 71 } { val := 72 } "Senior Go Engineer"
        [("lang", JSONValue.str "en")] 0).jobID = { val := 71 } ∧
      ∃ j, (service.GenerateResume (rabbitMQPublisher true true) true []
          { val := 71 } { val := 72 } "Senior Go Engineer"
          [("lang", JSONValue.str "en")] 0).store.find { val := 71 } = some j ∧
        j.status = ResumeJobStatus.pending ∧ j.userID = { val := 72 } ∧
        j.jobDescription = "Senior Go Engineer" ∧
        j.metadata = [("lang", JSONValue.str "en")] ∧ j.resumeID = none ∧
        j.errorMessage = "" ∧ j.errorCode = "") :=
  ⟨rfl, rfl,
   C3_submit_stores_pending (rabbitMQPublisher true true) []
     { val := 71 } { val := 72 } "Senior Go Engineer"
     [("lang", JSONValue.str "en")] 0 rfl rfl⟩

/-- Claim C9: the no-op publisher accepts every item without error while
logging the warning that the item is dropped; consequently a submission with
the no-op publisher installed succeeds synchronously, returns the new job id,
leaves the job `Pending` in the store, delivers nothing to any worker, and
the warning is observable in the submission's log output. -/
theorem C9_noop_publisher_degraded (s : Store) (freshID userID : UUID)
    (desc : String) (md : JSONMetadata) (now : Nat)
    (hfresh : s.find freshID = none) :
    (∀ item, (noOpPublisher.PublishResumeGenerationJob item).err = none ∧
      (noOpPublisher.PublishResumeGenerationJob item).delivered = [] ∧
      (noOpPublisher.PublishResumeGenerationJob item).logs =
        [{ level := LogLevel.warn
           msg := "RabbitMQ publisher is not available, job will not be queued" }]) ∧
    (service.GenerateResume noOpPublisher true s freshID userID desc md now).err = none ∧
    (service.GenerateResume noOpPublisher true s freshID userID desc md now).jobID = freshID ∧
    (∃ j, (service.GenerateResume noOpPublisher true s freshID userID desc md now).store.find
        freshID = some j ∧ j.status = ResumeJobStatus.pending) ∧
    (service.GenerateResume noOpPublisher true s freshID userID desc md now).delivered = [] ∧
    { level := LogLevel.warn
      msg := "RabbitMQ publisher is not available, job will not be queued" } ∈
      (service.GenerateResume noOpPublisher true s freshID userID desc md now).logs := by
  have hpub : (noOpPublisher.PublishResumeGenerationJob
      (workerJobOf (NewResumeGenerationJob freshID userID desc md now))).err = none := rfl
  rw [GenerateResume_run_pub_ok noOpPublisher s freshID userID desc md now hfresh hpub]
  have hid : (NewResumeGenerationJob freshID userID desc md now).id = freshID := rfl
  refine ⟨fun item => ⟨rfl, rfl, rfl⟩, rfl, rfl,
    ⟨NewResumeGenerationJob freshID userID desc md now, ?_, rfl⟩, rfl, ?_⟩
  · simp [Store.find, hid]
  · simp [noOpPublisher]

/-- Witness for C9 at a concrete submission. -/
theorem C9_noop_publisher_degraded_witness :
    Store.find [] { val := 81 } = none ∧
    ((service.GenerateResume noOpPublisher true [] { val := 81 } { val := 82 }
        "d" [] 0).err = none ∧
      (service.GenerateResume noOpPublisher true [] { val := 81 } { val := 82 }
        "d" [] 0).jobID = { val := 81 } ∧
      (service.GenerateResume noOpPublisher true [] { val := 81 } { val := 82 }
        "d" [] 0).delivered = []) :=
  ⟨rfl,
   ⟨(C9_noop_publisher_degraded [] { val := 81 } { val := 82 } "d" [] 0 rfl).2.1,
    (C9_noop_publisher_degraded [] { val := 81 } { val := 82 } "d" [] 0 rfl).2.2.1,
    (C9_noop_publisher_degraded [] { val := 81 } { val := 82 } "d" [] 0 rfl).2.2.2.2.1⟩⟩

/-- Claim C10: whenever `GenerateResume` returns an error — create failure or
publish failure — the returned job id is `uuid.Nil`; and when the create had
succeeded (available store, fresh id), the job record exists in the store in
`status=Failed` even though its id is not returned. -/
theorem C10_error_returns_nil_uuid (pub : RabbitMQPublisherI) (createAvail : Bool)
    (s : Store) (freshID userID : UUID) (desc : String) (md : JSONMetadata)
    (now : Nat)
    (herr : (service.GenerateResume pub createAvail s freshID userID desc md now).err.isSome
      = true) :
    (service.GenerateResume pub createAvail s freshID userID desc md now).jobID = UUID.Nil ∧
    (createAvail = true → s.find freshID = none →
      ∃ j, (service.GenerateResume pub createAvail s freshID userID desc md now).store.find
          freshID = some j ∧ j.status = ResumeJobStatus.failed) := by
  cases createAvail with
  | false =>
      rw [GenerateResume_run_create_unavailable]
      exact ⟨rfl, fun h => Bool.noConfusion h⟩
  | true =>
      cases hfind : s.find freshID with
      | some x =>
          rw [GenerateResume_run_duplicate pub s freshID userID desc md now x hfind]
          exact ⟨rfl, fun _ hnone => Option.noConfusion hnone⟩
      | none =>
          cases hout : (pub.PublishResumeGenerationJob
              (workerJobOf (NewResumeGenerationJob freshID userID desc md now))).err with
          | none =>
              rw [GenerateResume_run_pub_ok pub s freshID userID desc md now hfind hout]
                at herr
              simp at herr
          | some pe =>
              rw [GenerateResume_run_pub_err pub s freshID userID desc md now pe hfind hout]
              refine ⟨rfl, fun _ _ =>
                ⟨(NewResumeGenerationJob freshID userID desc md now).MarkFailed
                  "Failed to queue job for processing" "QUEUE_ERROR" now, ?_, rfl⟩⟩
              have hid2 : ((NewResumeGenerationJob freshID userID desc md now).MarkFailed
                  "Failed to queue job for processing" "QUEUE_ERROR" now).id = freshID := rfl
              simp [Store.find, hid2]

/-- Witness for C10 at a publish failure. -/
theorem C10_error_returns_nil_uuid_witness :
    ((service.GenerateResume (rabbitMQPublisher true false) true []
        { val := 91 } { val := 92 } "d" [] 0).err.isSome = true) ∧
    ((service.GenerateResume (rabbitMQPublisher true false) true []
        { val := 91 } { val := 92 } "d" [] 0).jobID = UUID.Nil ∧
      ∃ j, (service.GenerateResume (rabbitMQPublisher true false) true []
          { val := 91 } { val := 92 } "d" [] 0).store.find { val := 91 } = some j ∧
        j.status = ResumeJobStatus.failed) :=
  ⟨rfl,
   (C10_error_returns_nil_uuid (rabbitMQPublisher true false) true []
      { val := 91 } { val := 92 } "d" [] 0 rfl).1,
   (C10_error_returns_nil_uuid (rabbitMQPublisher true false) true []
      { val := 91 } { val := 92 } "d" [] 0 rfl).2 rfl rfl⟩

/-- Claim C8 counterexample: at a concrete submission, the message handed to
the publisher marshals to a JSON object whose field names are
`jobId`, `userId`, `jobDescription`, `metadata` — not the claimed
`jobId`, `ownerId`, `description`, `metadata`: neither `ownerId` nor
`description` occurs among the message's fields. -/
theorem C8_counterexample :
    ((service.GenerateResume (rabbitMQPublisher true true) true []
        { val := 31 } { val := 32 } "jd" [] 0).handed.map
      (fun wj => wj.marshal.map Prod.fst)) =
      [["jobId", "userId", "jobDescription", "metadata"]] ∧
    ¬ ("ownerId" ∈ (["jobId", "userId", "jobDescription", "metadata"] : List String)) ∧
    ¬ ("description" ∈ (["jobId", "userId", "jobDescription", "metadata"] : List String)) :=
  ⟨rfl, by decide, by decide⟩

/-- Claim C8 (amended): for every submission whose create succeeds, the
message handed to the publisher is a JSON object with exactly the fields
`jobId`, `userId`, `jobDescription` and `metadata` (the json tags of
`ResumeWorkerJob`), whose values are a snapshot of the job's id, owner,
payload text and metadata bag taken at publish time. -/
theorem C8_amended_wire_fields (pub : RabbitMQPublisherI) (s : Store)
    (freshID userID : UUID) (desc : String) (md : JSONMetadata) (now : Nat)
    (hfresh : s.find freshID = none) :
    (service.GenerateResume pub true s freshID userID desc md now).handed =
      [workerJobOf (NewResumeGenerationJob freshID userID desc md now)] ∧
    (workerJobOf (NewResumeGenerationJob freshID userID desc md now)).marshal =
      [("jobId", JSONValue.str (UUID.str freshID)),
       ("userId", JSONValue.str (UUID.str userID)),
       ("jobDescription", JSONValue.str desc),
       ("metadata", JSONValue.obj md)] := by
  constructor
  · cases hout : (pub.PublishResumeGenerationJob
        (workerJobOf (NewResumeGenerationJob freshID userID desc md now))).err with
    | none => rw [GenerateResume_run_pub_ok pub s freshID userID desc md now hfresh hout]
    | some pe => rw [GenerateResume_run_pub_err pub s freshID userID desc md now pe hfresh hout]
  · rfl

/-- Witness for the amended C8 theorem at a concrete submission. -/
theorem C8_amended_wire_fields_witness :
    Store.find [] { val := 35 } = none ∧
    ((service.GenerateResume noOpPublisher true [] { val := 35 } { val := 36 }
        "jd" [("lang", JSONValue.str "en")] 0).handed =
      [workerJobOf (NewResumeGenerationJob { val := 35 } { val := 36 } "jd"
        [("lang", JSONValue.str "en")] 0)] ∧
      (workerJobOf (NewResumeGenerationJob { val := 35 } { val := 36 } "jd"
          [("lang", JSONValue.str "en")] 0)).marshal =
        [("jobId", JSONValue.str (UUID.str { val := 35 })),
         ("userId", JSONValue.str (UUID.str { val := 36 })),
         ("jobDescription", JSONValue.str "jd"),
         ("metadata", JSONValue.obj [("lang", JSONValue.str "en")])]) :=
  ⟨rfl,
   C8_amended_wire_fields noOpPublisher [] { val := 35 } { val := 36 } "jd"
     [("lang", JSONValue.str "en")] 0 rfl⟩

/-- Claim C7 counterexample: `GetResumeGenerationJobStatus` takes no requester
identity, so a job owned by principal 1 is returned (not `NotFound`) to any
caller, in particular to the distinct principal 2. -/
theorem C7_counterexample :
    service.GetResumeGenerationJobStatus
        [NewResumeGenerationJob { val := 51 } { val := 1 } "d" [] 0] { val := 51 } =
      Except.ok (NewResumeGenerationJob { val := 51 } { val := 1 } "d" [] 0) ∧
    (NewResumeGenerationJob { val := 51 } { val := 1 } "d" [] 0).userID ≠ { val := 2 } :=
  ⟨rfl, by decide⟩

/-- Claim C7 (amended): `GetResumeGenerationJobStatus` is owner-blind — it
receives only the job id, fails `NotFound` exactly when the id is unknown, and
returns the stored job regardless of which principal owns it, so ownership is
not checked on the status path (owner scoping exists only on the list
operation, which takes a user id). -/
theorem C7_amended_get_status_owner_blind (s : Store) (jobID : UUID) :
    (s.find jobID = none →
      service.GetResumeGenerationJobStatus s jobID =
        Except.error (SvcErr.store RepoErr.notFound)) ∧
    (∀ j, s.find jobID = some j →
      service.GetResumeGenerationJobStatus s jobID = Except.ok j) := by
  constructor
  · intro h
    simp [service.GetResumeGenerationJobStatus, Repository.GetResumeGenerationJob, h]
  · intro j h
    simp [service.GetResumeGenerationJobStatus, Repository.GetResumeGenerationJob, h]

/-- Witness for the amended C7 theorem: unknown id yields `NotFound`, known id
yields the job whoever asks. -/
theorem C7_amended_get_status_owner_blind_witness :
    (Store.find [NewResumeGenerationJob { val := 53 } { val := 1 } "d" [] 0]
        { val := 54 } = none ∧
      service.GetResumeGenerationJobStatus
        [NewResumeGenerationJob { val := 53 } { val := 1 } "d" [] 0] { val := 54 } =
        Except.error (SvcErr.store RepoErr.notFound)) ∧
    (Store.find [NewResumeGenerationJob { val := 53 } { val := 1 } "d" [] 0]
        { val := 53 } = some (NewResumeGenerationJob { val := 53 } { val := 1 } "d" [] 0) ∧
      service.GetResumeGenerationJobStatus
        [NewResumeGenerationJob { val := 53 } { val := 1 } "d" [] 0] { val := 53 } =
        Except.ok (NewResumeGenerationJob { val := 53 } { val := 1 } "d" [] 0)) :=
  ⟨⟨rfl,
    (C7_amended_get_status_owner_blind
      [NewResumeGenerationJob { val := 53 } { val := 1 } "d" [] 0] { val := 54 }).1 rfl⟩,
   ⟨rfl,
    (C7_amended_get_status_owner_blind
      [NewResumeGenerationJob { val := 53 } { val := 1 } "d" [] 0] { val := 53 }).2
      (NewResumeGenerationJob { val := 53 } { val := 1 } "d" [] 0) rfl⟩⟩

/-- Claim C6 counterexample: the record obtained by submitting a job and then
applying the core's `MarkCancelled` is reachable by core operations and is in
a terminal status, yet neither the result reference nor any error info is set
— so "exactly one of {resultRef, errorInfo}" fails for `Cancelled`. -/
theorem C6_counterexample :
    CoreReachable ((NewResumeGenerationJob { val := 1 } { val := 2 } "d" [] 0).MarkCancelled 1) ∧
    ((NewResumeGenerationJob { val := 1 } { val := 2 } "d" [] 0).MarkCancelled 1).status.terminal
      = true ∧
    ((NewResumeGenerationJob { val := 1 } { val := 2 } "d" [] 0).MarkCancelled 1).resumeID
      = none ∧
    ((NewResumeGenerationJob { val := 1 } { val := 2 } "d" [] 0).MarkCancelled 1).errorMessage
      = "" ∧
    ((NewResumeGenerationJob { val := 1 } { val := 2 } "d" [] 0).MarkCancelled 1).errorCode
      = "" :=
  ⟨CoreReachable.step _ _
    (CoreReachable.submit { val := 1 } { val := 2 } "d" [] 0)
    (CoreStep.cancel _ 1), rfl, rfl, rfl, rfl⟩

/-- Claim C6 (amended): along the forward transition graph (operations applied
only to non-terminal jobs, as the state machine intends), `Completed` jobs
carry a result reference and cleared error fields, `Failed` jobs carry error
info (a nonempty code — both call sites record one) and no result reference —
so exactly one of the two is set for `Completed`/`Failed` — while `Pending`,
`Processing` and also the terminal `Cancelled` carry neither. -/
theorem C6_amended_forward_invariant (j : ResumeGenerationJob)
    (h : GuardedReachable j) :
    (j.status = ResumeJobStatus.completed →
      j.resumeID.isSome = true ∧ j.errorMessage = "" ∧ j.errorCode = "") ∧
    (j.status = ResumeJobStatus.failed →
      j.resumeID = none ∧ j.errorCode ≠ "") ∧
    (j.status = ResumeJobStatus.pending ∨ j.status = ResumeJobStatus.processing ∨
        j.status = ResumeJobStatus.cancelled →
      j.resumeID = none ∧ j.errorMessage = "" ∧ j.errorCode = "") := by
  induction h with
  | submit id uid desc md now =>
      exact ⟨fun hst => (nomatch hst), fun hst => (nomatch hst), fun _ => ⟨rfl, rfl, rfl⟩⟩
  | step a b hr hs ih =>
      cases hs with
      | processing now hpend =>
          have habs := ih.2.2 (Or.inl hpend)
          exact ⟨fun hst => (nomatch hst), fun hst => (nomatch hst),
            fun _ => ⟨habs.1, habs.2.1, habs.2.2⟩⟩
      | complete rid now hor =>
          refine ⟨fun _ => ⟨rfl, rfl, rfl⟩, fun hst => (nomatch hst), fun hor2 => ?_⟩
          rcases hor2 with h2 | h2 | h2 <;> exact (nomatch h2)
      | failWorker msg now hor =>
          have habs := ih.2.2 (hor.imp (fun hp => hp) (fun hp => Or.inl hp))
          refine ⟨fun hst => (nomatch hst), fun _ => ⟨habs.1, ?_⟩, fun hor2 => ?_⟩
          · show ("GENERATION_ERROR" : String) ≠ ""
            decide
          · rcases hor2 with h2 | h2 | h2 <;> exact (nomatch h2)
      | failQueue now hpend =>
          have habs := ih.2.2 (Or.inl hpend)
          refine ⟨fun hst => (nomatch hst), fun _ => ⟨habs.1, ?_⟩, fun hor2 => ?_⟩
          · show ("QUEUE_ERROR" : String) ≠ ""
            decide
          · rcases hor2 with h2 | h2 | h2 <;> exact (nomatch h2)
      | cancel now hor =>
          have habs := ih.2.2 (hor.imp (fun hp => hp) (fun hp => Or.inl hp))
          exact ⟨fun hst => (nomatch hst), fun hst => (nomatch hst),
            fun _ => ⟨habs.1, habs.2.1, habs.2.2⟩⟩

/-- Witness for the amended C6 theorem at a completed job reached forward. -/
theorem C6_amended_forward_invariant_witness :
    GuardedReachable ((NewResumeGenerationJob { val := 3 } { val := 4 } "d" [] 0).MarkCompleted
      { val := 5 } 1) ∧
    ((((NewResumeGenerationJob { val := 3 } { val := 4 } "d" [] 0).MarkCompleted
          { val := 5 } 1).status = ResumeJobStatus.completed →
        ((NewResumeGenerationJob { val := 3 } { val := 4 } "d" [] 0).MarkCompleted
          { val := 5 } 1).resumeID.isSome = true ∧
        ((NewResumeGenerationJob { val := 3 } { val := 4 } "d" [] 0).MarkCompleted
          { val := 5 } 1).errorMessage = "" ∧
        ((NewResumeGenerationJob { val := 3 } { val := 4 } "d" [] 0).MarkCompleted
          { val := 5 } 1).errorCode = "") ∧
      (((NewResumeGenerationJob { val := 3 } { val := 4 } "d" [] 0).MarkCompleted
          { val := 5 } 1).status = ResumeJobStatus.failed →
        ((NewResumeGenerationJob { val := 3 } { val := 4 } "d" [] 0).MarkCompleted
          { val := 5 } 1).resumeID = none ∧
        ((NewResumeGenerationJob { val := 3 } { val := 4 } "d" [] 0).MarkCompleted
          { val := 5 } 1).errorCode ≠ "") ∧
      (((NewResumeGenerationJob { val := 3 } { val := 4 } "d" [] 0).MarkCompleted
            { val := 5 } 1).status = ResumeJobStatus.pending ∨
          ((NewResumeGenerationJob { val := 3 } { val := 4 } "d" [] 0).MarkCompleted
            { val := 5 } 1).status = ResumeJobStatus.processing ∨
          ((NewResumeGenerationJob { val := 3 } { val := 4 } "d" [] 0).MarkCompleted
            { val := 5 } 1).status = ResumeJobStatus.cancelled →
        ((NewResumeGenerationJob { val := 3 } { val := 4 } "d" [] 0).MarkCompleted
          { val := 5 } 1).resumeID = none ∧
        ((NewResumeGenerationJob { val := 3 } { val := 4 } "d" [] 0).MarkCompleted
          { val := 5 } 1).errorMessage = "" ∧
        ((NewResumeGenerationJob { val := 3 } { val := 4 } "d" [] 0).MarkCompleted
          { val := 5 } 1).errorCode = "")) :=
  ⟨GuardedReachable.step _ _
     (GuardedReachable.submit { val := 3 } { val := 4 } "d" [] 0)
     (GuardedStep.complete _ { val := 5 } 1 (Or.inl rfl)),
   C6_amended_forward_invariant _
     (GuardedReachable.step _ _
       (GuardedReachable.submit { val := 3 } { val := 4 } "d" [] 0)
       (GuardedStep.complete _ { val := 5 } 1 (Or.inl rfl)))⟩
